import Mathlib

/-!
# Verification of the atsuko CLI core (`src/atsuko/cli.py`)

Shallow embedding of the command/parameter metadata model and the dispatch
engine of the `atsuko` package: the `CLI` registry, the `Command` descriptor
(docstring splitting, parameter derivation, argument reconstruction) and the
`CommandParameter` inference rules, translated from `cli.py`.

Python values that can appear as parameter defaults, parsed arguments and
call arguments are modelled by the inductive `Value`; Python classes used as
parameter types are modelled by `PyType`.  Fallible Python code (raising
`TypeError`, `KeyError`, `AttributeError`) is modelled with `Except`.
-/

set_option autoImplicit false

deriving instance DecidableEq for Except

namespace Atsuko

/-- Python scalar runtime values, as needed by the CLI core.  Floats are
modelled by integers (no claim exercises non-integral float arithmetic);
`none` is the Python `None` object. -/
inductive Scalar where
  | none
  | str (s : String)
  | int (n : Int)
  | float (n : Int)
  | bool (b : Bool)
  deriving DecidableEq, Repr

/-- Python runtime values, as needed by the CLI core: scalars, plus flat
sequences of scalars (parameter defaults, parsed argument values and variadic
argument sequences in this program are never more deeply nested). -/
inductive Value where
  | atom (a : Scalar)
  | list (xs : List Scalar)
  deriving DecidableEq, Repr

/-- The Python `None` object as a `Value`. -/
def vNone : Value := Value.atom Scalar.none

/-- A Python `str` as a `Value`. -/
def vStr (s : String) : Value := Value.atom (Scalar.str s)

/-- A Python `int` as a `Value`. -/
def vInt (n : Int) : Value := Value.atom (Scalar.int n)

/-- A Python `bool` as a `Value`. -/
def vBool (b : Bool) : Value := Value.atom (Scalar.bool b)

/-- Python classes usable as a parameter `type`: the builtin scalar classes,
the module-internal `_VarArgs` marker class, and any other class (identified
by its `str()` rendering). -/
inductive PyType where
  | str
  | int
  | float
  | bool
  | varArgs
  | other (s : String)
  deriving DecidableEq, Repr

/-- `type(v)` for a runtime value: the runtime class of a default value, used
by the default-driven type inference.  The module never instantiates its
internal `_VarArgs` class (variadic defaults are plain `[]`), so no value has
class `varArgs`. -/
def Value.pyType : Value → PyType
  | .atom .none => .other "NoneType"
  | .atom (.str _) => .str
  | .atom (.int _) => .int
  | .atom (.float _) => .float
  | .atom (.bool _) => .bool
  | .list _ => .other "list"

/-- Python truthiness (`bool(v)`). -/
def Value.truthy : Value → Bool
  | .atom .none => false
  | .atom (.str s) => !(s = "")
  | .atom (.int n) => !(n = 0)
  | .atom (.float n) => !(n = 0)
  | .atom (.bool b) => b
  | .list xs => !xs.isEmpty

/-- The five kinds of `inspect.Parameter`. -/
inductive ParamKind where
  | positionalOnly
  | positionalOrKeyword
  | varPositional
  | keywordOnly
  | varKeyword
  deriving DecidableEq, Repr

/-- The `ParameterAnnotation` dataclass: explicit per-parameter metadata
`{name, type, description, choices}` supplied by the command author. -/
structure ParamMeta where
  name : String
  type : PyType
  description : String
  choices : Option (List Value)
  deriving DecidableEq, Repr

/-- What a formal parameter's Python annotation can be: absent
(`inspect._empty`), a `ParameterAnnotation` instance, a bare class object, or
any other (non-class) object. -/
inductive Ann where
  | empty
  | meta (a : ParamMeta)
  | bare (t : PyType)
  | nonType (v : Value)
  deriving DecidableEq, Repr

/-- An `inspect.Parameter` introspection record: name, kind, annotation and
default (`Option.none` models `inspect._empty`, i.e. no default; note that
`some Value.none` is a present default of Python `None`). -/
structure ParamInfo where
  name : String
  kind : ParamKind
  ann : Ann
  default : Option Value
  deriving DecidableEq, Repr

/-- The `CommandParameter` descriptor derived from one `ParamInfo`
(class `CommandParameter` in `cli.py`). -/
structure CommandParameter where
  name : String
  pretty_name : String
  type : PyType
  description : String
  choices : Option (List Value)
  required : Bool
  default : Value
  deriving DecidableEq, Repr

/-- Helper for `splitLines`: split a character list at newlines, `acc` being
the (reversed) characters of the current line. -/
def splitLinesAux : List Char → List Char → List String
  | [], acc => [String.mk acc.reverse]
  | c :: cs, acc =>
    if c = '\n' then String.mk acc.reverse :: splitLinesAux cs []
    else splitLinesAux cs (c :: acc)

/-- Python `s.split("\n")`: the lines of a string.  Always non-empty;
`"".split("\n") == [""]` and a trailing newline yields a trailing empty
line, as in Python. -/
def splitLines (s : String) : List String :=
  splitLinesAux s.toList []

/-- Python `s.strip()`: leading and trailing whitespace removed. -/
def pyStrip (s : String) : String :=
  String.mk (((s.toList.dropWhile Char.isWhitespace).reverse.dropWhile
    Char.isWhitespace).reverse)

/-- Python `s.replace("_", "-")` (character-wise, since both pattern and
replacement are single characters). -/
def dashName (s : String) : String :=
  String.mk (s.toList.map (fun c => if c = '_' then '-' else c))

/-- `CommandParameter.type_name`: the pretty display name for a parameter
type. -/
def typeName : PyType → String
  | .str => "Text"
  | .int => "Number"
  | .float => "Number"
  | .bool => "Boolean"
  | .varArgs => "ListOfArguments"
  | .other s => s

/-- The synthesized description `Parameter '<name>' of <TypeName>`
(`\x27` is the ASCII apostrophe). -/
def paramDescription (name : String) (t : PyType) : String :=
  "Parameter \x27" ++ name ++ "\x27 of " ++ typeName t

/-- Steps 2-6 of `CommandParameter.__init__`: annotation handling, type
inference and requiredness, before the variadic-positional override.
Branch order follows the source: `ParameterAnnotation` instance first, then
bare class annotation, then non-null default, then the `str` fallback. -/
def baseParam (p : ParamInfo) : CommandParameter :=
  match p.ann with
  | .meta a =>
      { name := p.name, pretty_name := a.name, type := a.type,
        description := a.description, choices := a.choices,
        required := p.default.isNone, default := p.default.getD vNone }
  | .bare t =>
      { name := p.name, pretty_name := p.name, type := t,
        description := paramDescription p.name t, choices := Option.none,
        required := p.default.isNone, default := p.default.getD vNone }
  | _ =>
      match p.default with
      | some d =>
          if d = vNone then
            { name := p.name, pretty_name := p.name, type := PyType.str,
              description := paramDescription p.name PyType.str,
              choices := Option.none, required := false, default := d }
          else
            { name := p.name, pretty_name := p.name, type := d.pyType,
              description := paramDescription p.name d.pyType,
              choices := Option.none, required := false, default := d }
      | Option.none =>
          { name := p.name, pretty_name := p.name, type := PyType.str,
            description := paramDescription p.name PyType.str,
            choices := Option.none, required := true, default := vNone }

/-- The complete (non-raising part of) `CommandParameter.__init__`: the
variadic-positional override runs after annotation handling and replaces
type, requiredness and default. -/
def CommandParameter.make (p : ParamInfo) : CommandParameter :=
  if p.kind = ParamKind.varPositional then
    { baseParam p with type := PyType.varArgs, required := false,
                       default := Value.list [] }
  else
    baseParam p

/-- `CommandParameter.__init__`: rejects variable-keyword parameters with a
`TypeError`, otherwise builds the descriptor. -/
def CommandParameter.init (p : ParamInfo) : Except String CommandParameter :=
  if p.kind = ParamKind.varKeyword then
    Except.error "Variable number of optional arguments not supported"
  else
    Except.ok (CommandParameter.make p)

/-- The docstring-splitting rule of `Command._docstring`: given the command
name and the cleaned docstring of the wrapped callable (`inspect.getdoc`,
`Option.none` when absent), produce `(description, documentation)`.  The
`getdoc(func) or self.name` idiom makes an absent or empty docstring fall
back to the command name. -/
def docSplit (name : String) (doc : Option String) : String × String :=
  let docstring :=
    match doc with
    | some d => if d = "" then name else d
    | Option.none => name
  let lines := splitLines docstring
  if lines.length = 1 then
    (docstring, "")
  else if lines.get? 1 = some "" then
    ((lines.head?).getD "", String.intercalate "\n" (lines.drop 2))
  else
    ("Command " ++ name, docstring)

/-- Runtime faults of the dispatch engine: Python `AttributeError`,
`KeyError`, `TypeError`, and any exception raised by the wrapped callable
itself (propagated uncaught). -/
inductive RunError where
  | attributeError (attr : String)
  | keyError (key : String)
  | typeError (msg : String)
  | userExn (msg : String)
  deriving DecidableEq, Repr

/-- The flat mapping from parameter name to resolved value handed back by the
parsing collaborator (`vars(argns)`), and Python keyword-argument
dictionaries, modelled as association lists in insertion order. -/
def FlatMapping : Type := List (String × Value)

/-- Observable side effects of a dispatch: console output via `CLI.log` and
invocation of a wrapped callable with reconstructed arguments. -/
inductive Action where
  | log (msg : String)
  | invoke (cmd : String) (args : List Value) (kwargs : List (String × Value))
  deriving DecidableEq, Repr

/-- A registered Python callable: its `__name__`, its cleaned docstring
(`inspect.getdoc`; `Option.none` when absent), its signature
(`inspect.signature(...).parameters`, in declaration order) and its behaviour
when called with positional and keyword arguments (an `Except.error` models
an exception escaping the call). -/
structure PyFunc where
  name : String
  doc : Option String
  sig : List ParamInfo
  call : List Value → List (String × Value) → Except String Value

/-- The `Command` dataclass: a name and the wrapped callable. -/
structure Command where
  name : String
  func : PyFunc

/-- `dict[k] = v` on an insertion-ordered Python dict: replaces the value in
place when the key exists, appends otherwise. -/
def dictSet {α : Type} (d : List (String × α)) (k : String) (v : α) :
    List (String × α) :=
  match d with
  | [] => [(k, v)]
  | x :: xs => if x.1 = k then (k, v) :: xs else x :: dictSet xs k v

/-- Left-to-right effectful map, mirroring a Python list comprehension that
can raise: stops at the first error. -/
def mapME {ε α β : Type} (f : α → Except ε β) : List α → Except ε (List β)
  | [] => Except.ok []
  | x :: xs =>
    match f x with
    | Except.error e => Except.error e
    | Except.ok y =>
      match mapME f xs with
      | Except.error e => Except.error e
      | Except.ok ys => Except.ok (y :: ys)

/-- `Command.parameters`: the ordered name-to-descriptor mapping derived from
a signature; the `TypeError` of `CommandParameter.__init__` escapes. -/
def commandParameters (sig : List ParamInfo) :
    Except String (List (String × CommandParameter)) :=
  mapME (fun i => (CommandParameter.init i).map (fun p => (i.name, p))) sig

/-- `Command.parameters` as a method on the descriptor. -/
def Command.parameters (c : Command) :
    Except String (List (String × CommandParameter)) :=
  commandParameters c.func.sig

/-- `Command._docstring` / `Command.description` (first component) and
`Command.documentation` (second component). -/
def Command.docstringPair (c : Command) : String × String :=
  docSplit c.name c.func.doc

/-- `Command.description`: short help line. -/
def Command.description (c : Command) : String :=
  (Command.docstringPair c).1

/-- `Command.documentation`: long help text. -/
def Command.documentation (c : Command) : String :=
  (Command.docstringPair c).2

/-- Python `mapping[name]`: dictionary subscription raising `KeyError` when
the key is missing. -/
def lookupE (m : List (String × Value)) (k : String) : Except RunError Value :=
  match List.lookup k m with
  | some v => Except.ok v
  | Option.none => Except.error (RunError.keyError k)

/-- Total variant of `lookupE` for stating theorems: the value stored under a
key, `vNone` when absent. -/
def getV (m : List (String × Value)) (k : String) : Value :=
  (List.lookup k m).getD vNone

/-- Python iteration over a value (`args += value`): lists yield their
elements, strings yield their one-character substrings, scalars raise
`TypeError`. -/
def Value.iterate : Value → Except RunError (List Value)
  | .list xs => Except.ok (xs.map Value.atom)
  | .atom (.str s) => Except.ok (s.toList.map (fun c => vStr c.toString))
  | _ => Except.error (RunError.typeError "argument of type is not iterable")

/-- The elements a variadic mapping entry contributes to the positional list,
as a total function for theorem statements (claims only concern list-valued
variadic entries). -/
def iterL : Value → List Value
  | .list xs => xs.map Value.atom
  | _ => []

/-- Bool-valued test, for decidable hypotheses: is this optional value a
Python list? -/
def isListValue : Option Value → Bool
  | some (Value.list _) => true
  | _ => false

/-- The trailing loop of `Command.split_parameters`: for each parameter of
type `_VarArgs`, append the elements of its mapping entry to the positional
argument list. -/
def varArgsLoop (m : List (String × Value)) (acc : List Value) :
    List (String × CommandParameter) → Except RunError (List Value)
  | [] => Except.ok acc
  | x :: xs =>
    if x.2.type = PyType.varArgs then
      match lookupE m x.1 with
      | Except.error e => Except.error e
      | Except.ok v =>
        match Value.iterate v with
        | Except.error e => Except.error e
        | Except.ok elems => varArgsLoop m (acc ++ elems) xs
    else
      varArgsLoop m acc xs

/-- The body of `Command.split_parameters`, on an already-computed parameter
list: the required-parameter comprehension, the keyword-dictionary
comprehension, then the variadic loop, in source order. -/
def splitParams (pl : List (String × CommandParameter))
    (m : List (String × Value)) :
    Except RunError (List Value × List (String × Value)) :=
  match mapME (fun x => lookupE m x.1) (pl.filter (fun x => x.2.required)) with
  | Except.error e => Except.error e
  | Except.ok args =>
    match mapME (fun x => (lookupE m x.1).map (fun v => (x.1, v)))
        (pl.filter (fun x =>
          !x.2.required && !(decide (x.2.type = PyType.varArgs)))) with
    | Except.error e => Except.error e
    | Except.ok kwargs =>
      match varArgsLoop m args pl with
      | Except.error e => Except.error e
      | Except.ok args2 => Except.ok (args2, kwargs)

/-- `Command.split_parameters`: derives the parameter descriptors (whose
`TypeError` escapes as a `RunError`) and splits the flat mapping into
positional and keyword arguments. -/
def Command.split_parameters (c : Command) (m : List (String × Value)) :
    Except RunError (List Value × List (String × Value)) :=
  match Command.parameters c with
  | Except.error e => Except.error (RunError.typeError e)
  | Except.ok pl => splitParams pl m

/-- The `CLI` registry: name, normalized description, version, and the
insertion-ordered command mapping. -/
structure CLI where
  name : String
  description : String
  version : String
  commands : List (String × Command)

/-- `CLI.__init__`: strips each line of the description and drops blank
lines. -/
def CLI.init (name description version : String) : CLI :=
  { name := name,
    description := String.intercalate "\n"
      (((splitLines description).filter (fun l => !(l = ""))).map pyStrip),
    version := version,
    commands := [] }

/-- `CLI.command`: registration.  The callable's identifier is dash-cased and
the new `Command` is stored under it, overwriting silently.  Note that the
signature is *not* inspected here: `Command.parameters` is a lazy cached
property in the source, so registration itself cannot fail. -/
def CLI.command (cli : CLI) (func : PyFunc) : CLI × Command :=
  let name := dashName func.name
  let cmd : Command := { name := name, func := func }
  ({ cli with commands := dictSet cli.commands name cmd }, cmd)

/-- `CLI.run`: the dispatch engine.  `argns` is the flat mapping returned by
the external parsing collaborator for `args` (the result of
`vars(self.parse(args))`, §6 of the design); its production — tokenization,
coercion, `--help`, usage errors — is out of scope and passed in as data.
The result is the list of observable actions paired with the Python return
value of `run` (always `None` on a normal return: the source never returns
the invoked callable's result). -/
def CLI.run (cli : CLI) (args : List String) (argns : List (String × Value)) :
    Except RunError (List Action × Value) :=
  match args with
  | [] =>
    -- Source line 203: `self.parser.print_help()`.  `CLI` defines no
    -- attribute `parser` (its parsing method is `parse`, which builds a
    -- local parser object), so this attribute lookup raises.
    Except.error (RunError.attributeError "parser")
  | a0 :: _ =>
    match List.lookup a0 cli.commands with
    | Option.none =>
      -- `if argns.version: self.log(self.version)` then `return`.
      match List.lookup "version" argns with
      | Option.none => Except.error (RunError.attributeError "version")
      | some v =>
        if v.truthy then Except.ok ([Action.log cli.version], vNone)
        else Except.ok ([], vNone)
    | some command =>
      match Command.split_parameters command argns with
      | Except.error e => Except.error e
      | Except.ok (pargs, kwargs) =>
        match command.func.call pargs kwargs with
        | Except.error e => Except.error (RunError.userExn e)
        | Except.ok _ =>
          Except.ok ([Action.invoke command.name pargs kwargs], vNone)

/-- One entry of the parser specification fed to the external collaborator
(`CLI.parse`, the per-parameter `add_argument` calls).  For `boolFlag`,
`storeTrue = true` models `action='store_true'` (value `True` when the flag
is present, `False` otherwise) and `storeTrue = false` models
`action='store_false'` (value `False` when present, `True` otherwise). -/
inductive SpecEntry where
  | variadic (name : String) (help : String)
  | positional (name : String) (ty : PyType) (help : String)
      (choices : Option (List Value))
  | boolFlag (flag : String) (help : String) (storeTrue : Bool)
  | optionFlag (flag : String) (ty : PyType) (help : String) (dflt : Value)
      (choices : Option (List Value))
  deriving DecidableEq, Repr

/-- The per-parameter branch of `CLI.parse` emitting one parser-spec entry:
variadic, then required positional, then Boolean flag (with
`action = 'store_false' if bool(param.default) else 'store_true'`), then
generic optional flag. -/
def paramSpecEntry (p : CommandParameter) : SpecEntry :=
  if p.type = PyType.varArgs then
    SpecEntry.variadic p.name p.description
  else if p.required then
    SpecEntry.positional p.name p.type p.description p.choices
  else if p.type = PyType.bool then
    SpecEntry.boolFlag ("--" ++ p.name) p.description (!(Value.truthy p.default))
  else
    SpecEntry.optionFlag ("--" ++ p.name) p.type p.description p.default
      p.choices

/-- The value an argparse `store_true`/`store_false` action yields, by flag
presence: the action's constant when the flag is present, its default (the
negation) otherwise.  Modelled from the external collaborator's contract
(§6 of the design). -/
def flagValue (storeTrue : Bool) (present : Bool) : Bool :=
  if present then storeTrue else !storeTrue

/-- The annotation-declared type of a formal parameter, when one is declared
(bare class or `ParameterAnnotation.type`). -/
def ParamInfo.annType (p : ParamInfo) : Option PyType :=
  match p.ann with
  | .bare t => some t
  | .meta a => some a.type
  | _ => Option.none

/-! ### Concrete example commands and registries, used to evaluate the
theorems below on concrete inputs. -/

/-- Required parameter `a` (no annotation, no default). -/
def infoA : ParamInfo :=
  { name := "a", kind := ParamKind.positionalOrKeyword, ann := Ann.empty,
    default := Option.none }

/-- Required parameter `b` (no annotation, no default). -/
def infoB : ParamInfo :=
  { name := "b", kind := ParamKind.positionalOrKeyword, ann := Ann.empty,
    default := Option.none }

/-- Optional parameter `c` with default `5`. -/
def infoC : ParamInfo :=
  { name := "c", kind := ParamKind.positionalOrKeyword, ann := Ann.empty,
    default := some (vInt 5) }

/-- Variadic parameter `*rest`. -/
def infoRest : ParamInfo :=
  { name := "rest", kind := ParamKind.varPositional, ann := Ann.empty,
    default := Option.none }

/-- A callable `demo(a, b, c=5, *rest)`. -/
def funcDemo : PyFunc :=
  { name := "demo", doc := Option.none,
    sig := [infoA, infoB, infoC, infoRest],
    call := fun _ _ => Except.ok vNone }

/-- The command wrapping `funcDemo`. -/
def cmdDemo : Command := { name := "demo", func := funcDemo }

/-- The parameter descriptors derived from `funcDemo`'s signature. -/
def plDemo : List (String × CommandParameter) :=
  [("a", CommandParameter.make infoA),
   ("b", CommandParameter.make infoB),
   ("c", CommandParameter.make infoC),
   ("rest", CommandParameter.make infoRest)]

/-- The flat mapping `{a: 1, b: 2, c: 7, rest: [9, 10]}`. -/
def mapDemo : List (String × Value) :=
  [("a", vInt 1), ("b", vInt 2), ("c", vInt 7),
   ("rest", Value.list [Scalar.int 9, Scalar.int 10])]

/-- A command whose callable has docstring `"A\n\nB\nC"`. -/
def cmdEcho : Command :=
  { name := "echo",
    func := { name := "echo", doc := some "A\n\nB\nC", sig := [],
              call := fun _ _ => Except.ok vNone } }

/-- An empty registry. -/
def cliEmpty : CLI := CLI.init "app" "An application" "1.0.0"

/-- A callable `kw_func(**opts)`: its signature has a variable-keyword
parameter. -/
def kwFunc : PyFunc :=
  { name := "kw_func", doc := Option.none,
    sig := [{ name := "opts", kind := ParamKind.varKeyword, ann := Ann.empty,
              default := Option.none }],
    call := fun _ _ => Except.ok vNone }

/-- A formal parameter with a bare `str` type marker *and* a non-null
default of a different runtime class (`5`, an `int`). -/
def pBareWithDefault : ParamInfo :=
  { name := "p", kind := ParamKind.positionalOrKeyword,
    ann := Ann.bare PyType.str, default := some (vInt 5) }

/-- A formal parameter with a bare `int` type marker and a non-null `str`
default. -/
def pBareIntStrDefault : ParamInfo :=
  { name := "q", kind := ParamKind.positionalOrKeyword,
    ann := Ann.bare PyType.int, default := some (vStr "x") }

/-- A signature with a trailing variadic parameter that carries an explicit
annotation (which the variadic override must beat). -/
def sigVariadic : List ParamInfo :=
  [infoA,
   { name := "rest", kind := ParamKind.varPositional,
     ann := Ann.meta { name := "Rest", type := PyType.int,
                       description := "rest values",
                       choices := Option.none },
     default := Option.none }]

/-- A zero-parameter callable returning `42`. -/
def func42 : PyFunc :=
  { name := "cmd", doc := Option.none, sig := [],
    call := fun _ _ => Except.ok (vInt 42) }

/-- A registry holding only the command `cmd` (wrapping `func42`). -/
def cli42 : CLI := (CLI.command (CLI.init "app" "An app" "2.0.0") func42).1

/-- An optional Boolean parameter with default `False`. -/
def pCap : CommandParameter :=
  { name := "cap", pretty_name := "Capitalize", type := PyType.bool,
    description := "Capitalize option", choices := Option.none,
    required := false, default := vBool false }

/-! ### Helper lemmas -/

theorem splitLines_empty : splitLines "" = [""] := by decide

/-- The three-way docstring split, case "single line". -/
theorem docSplit_single (name text : String) (h1 : text ≠ "")
    (h2 : (splitLines text).length = 1) :
    docSplit name (some text) = (text, "") := by
  simp [docSplit, h1, h2]

/-- The three-way docstring split, case "second line blank". -/
theorem docSplit_sep (name text l0 : String) (rest : List String)
    (h : splitLines text = l0 :: "" :: rest) :
    docSplit name (some text) = (l0, String.intercalate "\n" rest) := by
  have htext : text ≠ "" := by
    intro he
    rw [he, splitLines_empty] at h
    cases h
  simp [docSplit, htext, h]

/-- The three-way docstring split, case "no blank separator". -/
theorem docSplit_noSep (name text l0 l1 : String) (rest : List String)
    (h : splitLines text = l0 :: l1 :: rest) (h1 : l1 ≠ "") :
    docSplit name (some text) = ("Command " ++ name, text) := by
  have htext : text ≠ "" := by
    intro he
    rw [he, splitLines_empty] at h
    cases h
  simp [docSplit, htext, h, h1]

/-- The docstring split when the callable has no docstring. -/
theorem docSplit_noDoc (name : String) (h : (splitLines name).length = 1) :
    docSplit name Option.none = (name, "") := by
  simp [docSplit, h]

/-- `dictSet` always makes the key retrievable, with the new value. -/
theorem dictSet_lookup {α : Type} (d : List (String × α)) (k : String)
    (v : α) : List.lookup k (dictSet d k v) = some v := by
  induction d with
  | nil => simp [dictSet, List.lookup]
  | cons x xs ih =>
    by_cases hx : x.1 = k
    · simp [dictSet, hx, List.lookup]
    · have hbeq : (k == x.1) = false := by
        simp [beq_iff_eq]
        exact fun he => hx he.symm
      simp [dictSet, hx, List.lookup, hbeq, ih]

/-- `CommandParameter.__init__` succeeds on every non-variable-keyword
parameter. -/
theorem init_ok (i : ParamInfo) (h : i.kind ≠ ParamKind.varKeyword) :
    CommandParameter.init i = Except.ok (CommandParameter.make i) := by
  simp [CommandParameter.init, h]

/-- `CommandParameter.__init__` raises on a variable-keyword parameter. -/
theorem init_error (i : ParamInfo) (h : i.kind = ParamKind.varKeyword) :
    CommandParameter.init i =
      Except.error "Variable number of optional arguments not supported" := by
  simp [CommandParameter.init, h]

/-- When no parameter is variable-keyword, the derived parameter mapping is
the pointwise `CommandParameter.make`. -/
theorem commandParameters_ok (sig : List ParamInfo)
    (h : ∀ i ∈ sig, i.kind ≠ ParamKind.varKeyword) :
    commandParameters sig =
      Except.ok (sig.map (fun i => (i.name, CommandParameter.make i))) := by
  induction sig with
  | nil => rfl
  | cons a l ih =>
    have ha := init_ok a (h a (List.mem_cons_self a l))
    have hl := ih (fun i hi => h i (List.mem_cons_of_mem a hi))
    simp [commandParameters, mapME, ha, Except.map] at hl ⊢
    simp [hl]

/-- When some parameter is variable-keyword, deriving the parameter mapping
raises the configuration `TypeError`. -/
theorem commandParameters_error_of_varKeyword (sig : List ParamInfo)
    (h : ∃ i ∈ sig, i.kind = ParamKind.varKeyword) :
    commandParameters sig =
      Except.error "Variable number of optional arguments not supported" := by
  induction sig with
  | nil =>
    obtain ⟨i, hi, _⟩ := h
    cases hi
  | cons a l ih =>
    by_cases hak : a.kind = ParamKind.varKeyword
    · simp [commandParameters, mapME, init_error a hak, Except.map]
    · obtain ⟨i, hi, hik⟩ := h
      have hil : i ∈ l := by
        rcases List.mem_cons.mp hi with he | hm
        · exact absurd (he ▸ hik) hak
        · exact hm
      have hl := ih ⟨i, hil, hik⟩
      simp [commandParameters, mapME, init_ok a hak, Except.map] at hl ⊢
      simp [hl]

/-- No runtime value has the module-internal `_VarArgs` class, so
default-driven inference never yields the variadic type. -/
theorem pyType_ne_varArgs (v : Value) : Value.pyType v ≠ PyType.varArgs := by
  cases v with
  | atom a => cases a <;> simp [Value.pyType]
  | list xs => simp [Value.pyType]

/-- The variadic-positional override: type, requiredness and default of a
`*args` parameter, whatever its annotation and default. -/
theorem make_of_varPositional (p : ParamInfo)
    (h : p.kind = ParamKind.varPositional) :
    (CommandParameter.make p).type = PyType.varArgs ∧
    (CommandParameter.make p).required = false ∧
    (CommandParameter.make p).default = Value.list [] := by
  simp [CommandParameter.make, h]

/-- A non-variadic parameter never derives the variadic type, unless its
annotation names the module-internal `_VarArgs` class. -/
theorem make_type_ne_varArgs (p : ParamInfo)
    (hk : p.kind ≠ ParamKind.varPositional)
    (ha : ParamInfo.annType p ≠ some PyType.varArgs) :
    (CommandParameter.make p).type ≠ PyType.varArgs := by
  unfold CommandParameter.make
  rw [if_neg hk]
  cases hann : p.ann with
  | meta a =>
    simp [ParamInfo.annType, hann] at ha
    simp [baseParam, hann, ha]
  | bare t =>
    simp [ParamInfo.annType, hann] at ha
    simp [baseParam, hann, ha]
  | empty =>
    cases hd : p.default with
    | some d =>
      by_cases hn : d = vNone
      · simp [baseParam, hann, hd, hn]
      · simp [baseParam, hann, hd, hn, pyType_ne_varArgs d]
    | none => simp [baseParam, hann, hd]
  | nonType v =>
    cases hd : p.default with
    | some d =>
      by_cases hn : d = vNone
      · simp [baseParam, hann, hd, hn]
      · simp [baseParam, hann, hd, hn, pyType_ne_varArgs d]
    | none => simp [baseParam, hann, hd]

/-- Filtering a mapped list by a predicate that agrees pointwise with a
predicate on the originals preserves the filtered length. -/
theorem length_filter_map_eq {α β : Type} (f : α → β) (p : β → Bool)
    (q : α → Bool) (l : List α) (h : ∀ a ∈ l, p (f a) = q a) :
    ((l.map f).filter p).length = (l.filter q).length := by
  induction l with
  | nil => rfl
  | cons a t ih =>
    have ha := h a (List.mem_cons_self a t)
    have ht := ih (fun x hx => h x (List.mem_cons_of_mem a hx))
    simp only [List.map_cons, List.filter_cons, ha]
    cases q a <;> simp [ht]

/-- Dictionary subscription succeeds on present keys, with the stored
value. -/
theorem lookupE_ok (m : List (String × Value)) (k : String)
    (h : (List.lookup k m).isSome = true) :
    lookupE m k = Except.ok (getV m k) := by
  unfold lookupE getV
  cases hl : List.lookup k m with
  | some v => simp
  | none => rw [hl] at h; cases h

/-- A comprehension none of whose elements raises evaluates to the pointwise
map. -/
theorem mapME_ok {ε α β : Type} (f : α → Except ε β) (g : α → β)
    (l : List α) (h : ∀ x ∈ l, f x = Except.ok (g x)) :
    mapME f l = Except.ok (l.map g) := by
  induction l with
  | nil => rfl
  | cons a t ih =>
    have ha := h a (List.mem_cons_self a t)
    have ht := ih (fun x hx => h x (List.mem_cons_of_mem a hx))
    simp [mapME, ha, ht]

/-- A comprehension whose body agrees pointwise on the list evaluates
identically. -/
theorem mapME_congr {ε α β : Type} (f g : α → Except ε β) (l : List α)
    (h : ∀ x ∈ l, f x = g x) : mapME f l = mapME g l := by
  induction l with
  | nil => rfl
  | cons a t ih =>
    have ha := h a (List.mem_cons_self a t)
    have ht := ih (fun x hx => h x (List.mem_cons_of_mem a hx))
    simp only [mapME, ha, ht]

/-- The variadic loop, when every variadic entry of the mapping is a list,
appends the (in-order) elements of those lists to the accumulator. -/
theorem varArgsLoop_ok (m : List (String × Value)) :
    ∀ (l : List (String × CommandParameter)) (acc : List Value),
    (∀ x ∈ l, x.2.type = PyType.varArgs →
      isListValue (List.lookup x.1 m) = true) →
    varArgsLoop m acc l = Except.ok (acc ++
      ((l.filter (fun x => decide (x.2.type = PyType.varArgs))).map
        (fun x => iterL (getV m x.1))).flatten) := by
  intro l
  induction l with
  | nil => intro acc h; simp [varArgsLoop]
  | cons a t ih =>
    intro acc h
    by_cases ha : a.2.type = PyType.varArgs
    · have hl := h a (List.mem_cons_self a t) ha
      obtain ⟨xs, hxs⟩ : ∃ xs, List.lookup a.1 m = some (Value.list xs) := by
        cases hll : List.lookup a.1 m with
        | some v =>
          cases v with
          | atom s => rw [hll] at hl; cases hl
          | list xs => exact ⟨xs, rfl⟩
        | none => rw [hll] at hl; cases hl
      have ht := ih (acc ++ xs.map Value.atom)
        (fun x hx hxt => h x (List.mem_cons_of_mem a hx) hxt)
      simp [varArgsLoop, ha, lookupE, hxs, Value.iterate, ht, getV, iterL,
        List.append_assoc]
    · have ht := ih acc (fun x hx hxt => h x (List.mem_cons_of_mem a hx) hxt)
      simp [varArgsLoop, ha, ht]

/-- The variadic loop only inspects the mapping at variadic parameter
names. -/
theorem varArgsLoop_congr (m1 m2 : List (String × Value)) :
    ∀ (l : List (String × CommandParameter)) (acc : List Value),
    (∀ x ∈ l, x.2.type = PyType.varArgs →
      List.lookup x.1 m1 = List.lookup x.1 m2) →
    varArgsLoop m1 acc l = varArgsLoop m2 acc l := by
  intro l
  induction l with
  | nil => intro acc h; rfl
  | cons a t ih =>
    intro acc h
    by_cases ha : a.2.type = PyType.varArgs
    · have hl := h a (List.mem_cons_self a t) ha
      have hlook : lookupE m1 a.1 = lookupE m2 a.1 := by
        unfold lookupE
        rw [hl]
      cases h2 : lookupE m2 a.1 with
      | error e => simp only [varArgsLoop, ha, if_true, hlook, h2]
      | ok v =>
        cases hit : Value.iterate v with
        | error e => simp only [varArgsLoop, ha, if_true, hlook, h2, hit]
        | ok elems =>
          simp only [varArgsLoop, ha, if_true, hlook, h2, hit]
          exact ih (acc ++ elems)
            (fun x hx hxt => h x (List.mem_cons_of_mem a hx) hxt)
    · simp only [varArgsLoop, ha, if_false]
      exact ih acc (fun x hx hxt => h x (List.mem_cons_of_mem a hx) hxt)

/-! ### Claim theorems -/

/-- C2: For every attached help-text block, the derived
(description, documentation) pair follows the three-way rule exactly: a
single-line text yields `(that line, "")`; a text whose second line is empty
yields `(first line, lines from the third onward rejoined with newlines)`;
any other text yields `("Command <name>", the entire original text
unchanged)`; and when the callable has no help text at all, the command's
own name serves as the sole description with empty documentation. -/
theorem command_help_three_way_rule (c : Command) :
    (∀ text, c.func.doc = some text → text ≠ "" →
        (splitLines text).length = 1 →
        Command.description c = text ∧ Command.documentation c = "") ∧
    (∀ text l0 rest, c.func.doc = some text →
        splitLines text = l0 :: "" :: rest →
        Command.description c = l0 ∧
        Command.documentation c = String.intercalate "\n" rest) ∧
    (∀ text l0 l1 rest, c.func.doc = some text →
        splitLines text = l0 :: l1 :: rest → l1 ≠ "" →
        Command.description c = "Command " ++ c.name ∧
        Command.documentation c = text) ∧
    (c.func.doc = Option.none → (splitLines c.name).length = 1 →
        Command.description c = c.name ∧ Command.documentation c = "") := by
  refine ⟨?_, ?_, ?_, ?_⟩
  · intro text hdoc htext hlen
    unfold Command.description Command.documentation Command.docstringPair
    rw [hdoc, docSplit_single c.name text htext hlen]
    exact ⟨rfl, rfl⟩
  · intro text l0 rest hdoc hsplit
    unfold Command.description Command.documentation Command.docstringPair
    rw [hdoc, docSplit_sep c.name text l0 rest hsplit]
    exact ⟨rfl, rfl⟩
  · intro text l0 l1 rest hdoc hsplit h1
    unfold Command.description Command.documentation Command.docstringPair
    rw [hdoc, docSplit_noSep c.name text l0 l1 rest hsplit h1]
    exact ⟨rfl, rfl⟩
  · intro hdoc hlen
    unfold Command.description Command.documentation Command.docstringPair
    rw [hdoc, docSplit_noDoc c.name hlen]
    exact ⟨rfl, rfl⟩

/-- C1: For every command and every flat mapping with an entry for each
declared parameter (list-valued at the variadic parameter), reconstruction
returns `(positional, keyword)` where `positional` lists the required
parameters' values in declaration order followed by the elements of each
variadic parameter's sequence in order, and `keyword` maps exactly the
names of the non-required, non-variadic parameters to their values. -/
theorem split_parameters_reconstruction (c : Command)
    (pl : List (String × CommandParameter)) (m : List (String × Value))
    (hp : Command.parameters c = Except.ok pl)
    (h1 : ∀ x ∈ pl, (List.lookup x.1 m).isSome = true)
    (h2 : ∀ x ∈ pl, x.2.type = PyType.varArgs →
      isListValue (List.lookup x.1 m) = true) :
    Command.split_parameters c m = Except.ok
      ((pl.filter (fun x => x.2.required)).map (fun x => getV m x.1) ++
        ((pl.filter (fun x => decide (x.2.type = PyType.varArgs))).map
          (fun x => iterL (getV m x.1))).flatten,
       (pl.filter (fun x =>
          !x.2.required && !(decide (x.2.type = PyType.varArgs)))).map
         (fun x => (x.1, getV m x.1))) := by
  have hargs : mapME (fun x => lookupE m x.1)
      (pl.filter (fun x => x.2.required)) =
      Except.ok ((pl.filter (fun x => x.2.required)).map
        (fun x => getV m x.1)) :=
    mapME_ok _ _ _ (fun x hx =>
      lookupE_ok m x.1 (h1 x (List.mem_of_mem_filter hx)))
  have hkw : mapME (fun x => (lookupE m x.1).map (fun v => (x.1, v)))
      (pl.filter (fun x =>
        !x.2.required && !(decide (x.2.type = PyType.varArgs)))) =
      Except.ok ((pl.filter (fun x =>
        !x.2.required && !(decide (x.2.type = PyType.varArgs)))).map
          (fun x => (x.1, getV m x.1))) :=
    mapME_ok _ _ _ (fun x hx => by
      rw [lookupE_ok m x.1 (h1 x (List.mem_of_mem_filter hx))]
      rfl)
  have hloop := varArgsLoop_ok m pl
    ((pl.filter (fun x => x.2.required)).map (fun x => getV m x.1)) h2
  simp only [Command.split_parameters, hp, splitParams, hargs, hkw, hloop]

/-- C1 witness: the command `demo(a, b, c=5, *rest)` with flat mapping
`{a: 1, b: 2, c: 7, rest: [9, 10]}` reconstructs positional
`[1, 2, 9, 10]` and keyword `{c: 7}`. -/
theorem split_parameters_reconstruction_witness :
    Command.split_parameters cmdDemo mapDemo =
      Except.ok ([vInt 1, vInt 2, vInt 9, vInt 10], [("c", vInt 7)]) := by
  have h := split_parameters_reconstruction cmdDemo plDemo mapDemo
    (by decide) (by decide) (by decide)
  rw [h]
  decide

/-- C10: The reconstruction step reads the flat mapping only at declared
parameter names: mappings that agree there reconstruct identically, and in
particular the top-level `version` entry (present in every parsed result)
never reaches the wrapped callable when no parameter is named `version`. -/
theorem split_parameters_ignores_undeclared (c : Command) :
    (∀ pl m1 m2, Command.parameters c = Except.ok pl →
      (∀ x ∈ pl, List.lookup x.1 m1 = List.lookup x.1 m2) →
      Command.split_parameters c m1 = Command.split_parameters c m2) ∧
    (∀ pl v m, Command.parameters c = Except.ok pl →
      "version" ∉ pl.map Prod.fst →
      Command.split_parameters c (("version", v) :: m) =
        Command.split_parameters c m) := by
  have key : ∀ pl m1 m2,
      (∀ x ∈ pl, List.lookup x.1 m1 = List.lookup x.1 m2) →
      splitParams pl m1 = splitParams pl m2 := by
    intro pl m1 m2 hagree
    have hargs := mapME_congr (fun x => lookupE m1 x.1)
      (fun x => lookupE m2 x.1) (pl.filter (fun x => x.2.required))
      (fun x hx => by
        change lookupE m1 x.1 = lookupE m2 x.1
        unfold lookupE
        rw [hagree x (List.mem_of_mem_filter hx)])
    have hkw := mapME_congr
      (fun x => (lookupE m1 x.1).map (fun v => (x.1, v)))
      (fun x => (lookupE m2 x.1).map (fun v => (x.1, v)))
      (pl.filter (fun x =>
        !x.2.required && !(decide (x.2.type = PyType.varArgs))))
      (fun x hx => by
        change (lookupE m1 x.1).map (fun v => (x.1, v)) =
          (lookupE m2 x.1).map (fun v => (x.1, v))
        unfold lookupE
        rw [hagree x (List.mem_of_mem_filter hx)])
    have hloop : ∀ acc, varArgsLoop m1 acc pl = varArgsLoop m2 acc pl :=
      fun acc => varArgsLoop_congr m1 m2 pl acc
        (fun x hx _ => hagree x hx)
    unfold splitParams
    rw [hargs, hkw]
    cases hA : mapME (fun x => lookupE m2 x.1)
        (pl.filter (fun x => x.2.required)) with
    | error e => rfl
    | ok args =>
      cases hB : mapME (fun x => (lookupE m2 x.1).map (fun v => (x.1, v)))
          (pl.filter (fun x =>
            !x.2.required && !(decide (x.2.type = PyType.varArgs)))) with
      | error e => rfl
      | ok kwargs =>
        simp only [hloop args]
  constructor
  · intro pl m1 m2 hp hagree
    unfold Command.split_parameters
    rw [hp]
    exact key pl m1 m2 hagree
  · intro pl v m hp hver
    unfold Command.split_parameters
    rw [hp]
    refine key pl (("version", v) :: m) m (fun x hx => ?_)
    have hne : x.1 ≠ "version" := by
      intro he
      exact hver (he ▸ List.mem_map_of_mem Prod.fst hx)
    have hbeq : (x.1 == "version") = false := by
      simp [beq_iff_eq]
      exact hne
    simp [List.lookup, hbeq]

/-- C10 witness: adding the `version` entry (and in a mapping that also
contains it, changing nothing else) leaves `demo`'s reconstruction
unchanged. -/
theorem split_parameters_ignores_undeclared_witness :
    Command.split_parameters cmdDemo (("version", vBool true) :: mapDemo) =
      Command.split_parameters cmdDemo mapDemo :=
  (split_parameters_ignores_undeclared cmdDemo).2 plDemo (vBool true)
    mapDemo (by decide) (by decide)

/-- C6: For every callable with a (single) trailing variable-positional
parameter — and no parameter whose annotation names the module-internal
`_VarArgs` class, which is not part of the public annotation vocabulary —
exactly one derived parameter has type `VariadicList`, with
`required = false` and default the empty sequence, regardless of any
explicit annotation attached to the variadic parameter (the override runs
after annotation handling and wins). -/
theorem variadic_override (infos : List ParamInfo)
    (h1 : (infos.filter
      (fun i => decide (i.kind = ParamKind.varPositional))).length = 1)
    (h2 : ∀ i ∈ infos, i.kind ≠ ParamKind.varKeyword)
    (h3 : ∀ i ∈ infos, i.kind ≠ ParamKind.varPositional →
      ParamInfo.annType i ≠ some PyType.varArgs) :
    ∃ pl, commandParameters infos = Except.ok pl ∧
      (pl.filter
        (fun x => decide (x.2.type = PyType.varArgs))).length = 1 ∧
      ∀ x ∈ pl, x.2.type = PyType.varArgs →
        x.2.required = false ∧ x.2.default = Value.list [] := by
  refine ⟨infos.map (fun i => (i.name, CommandParameter.make i)),
    commandParameters_ok infos h2, ?_, ?_⟩
  · rw [length_filter_map_eq (fun i => (i.name, CommandParameter.make i))
      (fun x => decide (x.2.type = PyType.varArgs))
      (fun i => decide (i.kind = ParamKind.varPositional)) infos ?_]
    · exact h1
    · intro a hmem
      by_cases hk : a.kind = ParamKind.varPositional
      · simp [(make_of_varPositional a hk).1, hk]
      · simp [make_type_ne_varArgs a hk (h3 a hmem hk), hk]
  · intro x hx hxt
    obtain ⟨i, hi, rfl⟩ := List.mem_map.mp hx
    by_cases hk : i.kind = ParamKind.varPositional
    · exact ⟨(make_of_varPositional i hk).2.1,
        (make_of_varPositional i hk).2.2⟩
    · exact absurd hxt (make_type_ne_varArgs i hk (h3 i hi hk))

/-- C6 witness: on the signature `demo(a, *rest)` where `rest` carries an
explicit annotation with type `int`, exactly one derived parameter is
variadic, optional, with empty-sequence default. -/
theorem variadic_override_witness :
    ∃ pl, commandParameters sigVariadic = Except.ok pl ∧
      (pl.filter
        (fun x => decide (x.2.type = PyType.varArgs))).length = 1 ∧
      ∀ x ∈ pl, x.2.type = PyType.varArgs →
        x.2.required = false ∧ x.2.default = Value.list [] :=
  variadic_override sigVariadic (by decide) (by decide) (by decide)

/-- C4 counterexample: registering the callable `kw_func(**opts)` raises
nothing and *does* store the command under `"kw-func"` in the registry's
command mapping — the signature is only introspected lazily, so the
configuration error is not raised at registration time.  (The second
conjunct locates the actual failure: deriving the parameter descriptors.) -/
theorem var_keyword_registration_stores :
    (List.lookup "kw-func"
      ((CLI.command cliEmpty kwFunc).1.commands)).isSome = true ∧
    Command.parameters (CLI.command cliEmpty kwFunc).2 =
      Except.error "Variable number of optional arguments not supported" := by
  constructor
  · decide
  · decide

/-- C4 (amended): For every callable whose signature contains a
variable-keyword parameter, registration itself succeeds and stores the
command in the registry's mapping; the configuration `TypeError` is raised
later, when the command's parameter descriptors are first derived during
signature introspection (a lazy cached property, first forced when the
parser specification is built). -/
theorem var_keyword_lazy_config_error (cli : CLI) (f : PyFunc)
    (h : ∃ i ∈ f.sig, i.kind = ParamKind.varKeyword) :
    (List.lookup (dashName f.name)
      ((CLI.command cli f).1.commands)).isSome = true ∧
    Command.parameters (CLI.command cli f).2 =
      Except.error "Variable number of optional arguments not supported" := by
  constructor
  · simp [CLI.command, dictSet_lookup]
  · exact commandParameters_error_of_varKeyword f.sig h

/-- C4 witness: the amended claim evaluated on `kw_func(**opts)` registered
into the empty registry. -/
theorem var_keyword_lazy_config_error_witness :
    (List.lookup (dashName kwFunc.name)
      ((CLI.command cliEmpty kwFunc).1.commands)).isSome = true ∧
    Command.parameters (CLI.command cliEmpty kwFunc).2 =
      Except.error "Variable number of optional arguments not supported" :=
  var_keyword_lazy_config_error cliEmpty kwFunc
    ⟨{ name := "opts", kind := ParamKind.varKeyword, ann := Ann.empty,
       default := Option.none }, by decide, rfl⟩

/-- C5 counterexample: the parameter `p` with bare type marker `str` and
non-null default `5` derives type `str` (the marker), not `int` (the runtime
type of the default): the bare-marker branch runs before — and regardless
of — the default-based inference. -/
theorem bare_marker_beats_default :
    CommandParameter.init pBareWithDefault = Except.ok
      { name := "p", pretty_name := "p", type := PyType.str,
        description := "Parameter \x27p\x27 of Text", choices := Option.none,
        required := false, default := vInt 5 } ∧
    Value.pyType (vInt 5) = PyType.int ∧ PyType.str ≠ PyType.int := by
  decide

/-- C5 (amended): For every formal parameter with no explicit annotation
object that carries a bare type marker, the derived type is that marker even
when a non-null default value is present (the default-runtime-type rule
applies only when there is no marker); the description is synthesized as
`Parameter '<name>' of <TypeName>` from the marker, choices is none, and the
default still determines requiredness and the stored default value. -/
theorem bare_marker_inference (p : ParamInfo) (t : PyType)
    (hk1 : p.kind ≠ ParamKind.varKeyword)
    (hk2 : p.kind ≠ ParamKind.varPositional)
    (ha : p.ann = Ann.bare t) :
    CommandParameter.init p = Except.ok
      { name := p.name, pretty_name := p.name, type := t,
        description := paramDescription p.name t, choices := Option.none,
        required := p.default.isNone,
        default := p.default.getD vNone } := by
  rw [init_ok p hk1]
  simp [CommandParameter.make, hk2, baseParam, ha]

/-- C5 witness: the amended claim on parameter `q` with bare marker `int`
and default `"x"`: the derived type is `int`, the marker. -/
theorem bare_marker_inference_witness :
    CommandParameter.init pBareIntStrDefault = Except.ok
      { name := pBareIntStrDefault.name,
        pretty_name := pBareIntStrDefault.name, type := PyType.int,
        description := paramDescription pBareIntStrDefault.name PyType.int,
        choices := Option.none,
        required := pBareIntStrDefault.default.isNone,
        default := pBareIntStrDefault.default.getD vNone } :=
  bare_marker_inference pBareIntStrDefault PyType.int
    (by decide) (by decide) rfl

/-- C7 counterexample: dispatching `["cmd"]` on a registry whose command
`cmd` wraps a callable returning `42` invokes the callable with the
reconstructed arguments, but `run` returns `None` — the callable's result
is discarded, not returned to the dispatch caller. -/
theorem dispatch_discards_result :
    CLI.run cli42 ["cmd"] [("version", vBool false)] =
      Except.ok ([Action.invoke "cmd" [] []], vNone) ∧
    func42.call [] [] = Except.ok (vInt 42) ∧
    vNone ≠ vInt 42 := by
  refine ⟨by decide, rfl, by decide⟩

/-- C7 (amended): For every dispatch whose first token matches a registered
command, the registry invokes the wrapped callable with the reconstructed
positional and keyword arguments, propagating uncaught any exception the
callable raises; the callable's return value, however, is discarded and the
dispatch itself returns `None`. -/
theorem dispatch_invokes_matched_command (cli : CLI) (a0 : String)
    (rest : List String) (argns : List (String × Value)) (cmd : Command)
    (pargs : List Value) (kwargs : List (String × Value))
    (hcmd : List.lookup a0 cli.commands = some cmd)
    (hsplit : Command.split_parameters cmd argns =
      Except.ok (pargs, kwargs)) :
    (∀ v, cmd.func.call pargs kwargs = Except.ok v →
      CLI.run cli (a0 :: rest) argns =
        Except.ok ([Action.invoke cmd.name pargs kwargs], vNone)) ∧
    (∀ e, cmd.func.call pargs kwargs = Except.error e →
      CLI.run cli (a0 :: rest) argns =
        Except.error (RunError.userExn e)) := by
  constructor
  · intro v hv
    simp only [CLI.run, hcmd, hsplit, hv]
  · intro e he
    simp only [CLI.run, hcmd, hsplit, he]

/-- C7 witness: the amended claim on `cli42` and tokens `["cmd"]`: the
callable (which returns `42`) is invoked with no arguments and the dispatch
returns `None`. -/
theorem dispatch_invokes_matched_command_witness :
    CLI.run cli42 ["cmd"] [("version", vBool false)] =
      Except.ok ([Action.invoke "cmd" [] []], vNone) := by
  have h := (dispatch_invokes_matched_command cli42 "cmd" []
    [("version", vBool false)] (Command.mk "cmd" func42) [] []
    rfl (by decide)).1 (vInt 42) rfl
  rw [h]

/-- C9: For every non-empty token list whose first token matches no
registered command name (given the flat mapping the collaborator produced,
which always carries the top-level `version` entry), dispatch raises
nothing and invokes no command: it logs the version exactly when the
`version` flag is set, and returns `None`. -/
theorem dispatch_unmatched_token_falls_through (cli : CLI) (a0 : String)
    (rest : List String) (argns : List (String × Value)) (b : Bool)
    (hcmd : List.lookup a0 cli.commands = Option.none)
    (hv : List.lookup "version" argns = some (vBool b)) :
    CLI.run cli (a0 :: rest) argns =
      Except.ok ((if b then [Action.log cli.version] else []), vNone) := by
  simp only [CLI.run, hcmd, hv]
  cases b with
  | true => simp [vBool, Value.truthy]
  | false => simp [vBool, Value.truthy]

/-- C9 witness: dispatching `["nope", "-v"]`-style input (unmatched first
token, version flag set) on `cli42` logs the version `2.0.0` and returns
without error. -/
theorem dispatch_unmatched_token_falls_through_witness :
    CLI.run cli42 ["nope"] [("version", vBool true)] =
      Except.ok ([Action.log cli42.version], vNone) := by
  have h := dispatch_unmatched_token_falls_through cli42 "nope" []
    [("version", vBool true)] true rfl rfl
  rw [h]
  simp

/-- C2 witness: on the command `echo` with help text `"A\n\nB\nC"`, the
derived pair is `("A", "B\nC")`. -/
theorem command_help_three_way_rule_witness :
    Command.description cmdEcho = "A" ∧
    Command.documentation cmdEcho = "B\nC" :=
  (command_help_three_way_rule cmdEcho).2.1 "A\n\nB\nC" "A" ["B", "C"]
    rfl (by decide)

/-- C3 (code bug): dispatching an empty token list does *not* surface the
top-level help and return without error: `CLI.run` evaluates
`self.parser.print_help()`, but `CLI` defines no attribute `parser` (its
parsing method is named `parse`), so every empty-token dispatch raises an
`AttributeError` before reaching any command. -/
theorem run_empty_tokens_raises (cli : CLI) (argns : List (String × Value)) :
    CLI.run cli [] argns = Except.error (RunError.attributeError "parser") :=
  rfl

/-- C8: For every optional Boolean parameter, the emitted parser-spec entry
is a flag switch whose presence flips the parameter's stated default: the
source picks `action='store_false'` when the default is truthy and
`action='store_true'` otherwise, so presence yields the negation of the
default's truthiness, and absence yields the default's truthiness. -/
theorem bool_flag_flips_default (p : CommandParameter)
    (h1 : p.required = false) (h2 : p.type = PyType.bool) :
    paramSpecEntry p =
      SpecEntry.boolFlag ("--" ++ p.name) p.description
        (!(Value.truthy p.default)) ∧
    flagValue (!(Value.truthy p.default)) true = !(Value.truthy p.default) ∧
    flagValue (!(Value.truthy p.default)) false = Value.truthy p.default := by
  refine ⟨?_, rfl, by simp [flagValue]⟩
  simp [paramSpecEntry, h1, h2]

/-- C8 witness: the optional Boolean parameter `cap` with default `False`
becomes `--cap` with `store_true` semantics: present gives `True`, absent
gives `False`. -/
theorem bool_flag_flips_default_witness :
    paramSpecEntry pCap =
      SpecEntry.boolFlag ("--" ++ pCap.name) pCap.description
        (!(Value.truthy pCap.default)) ∧
    flagValue (!(Value.truthy pCap.default)) true =
      !(Value.truthy pCap.default) ∧
    flagValue (!(Value.truthy pCap.default)) false =
      Value.truthy pCap.default :=
  bool_flag_flips_default pCap rfl rfl

end Atsuko
